import Mathlib

/-!
Shallow embedding of the photodb repository (src/photodb.py, src/dbmwrapper.py)
and verification of its specification claims.

Conventions used throughout:
* Python dictionaries are modelled as association lists with a first-match
  lookup; `db[k] = v` is modelled as an observationally equivalent
  replace-then-cons update.
* Byte strings are modelled as `List Nat`; Python `bytes` truthiness is
  emptiness of the list.
* `pickle.dumps` / `pickle.loads` are external collaborators; they are
  modelled as a parameter pair `ser` / `deser` together with the round-trip
  facts the claims need, discharged concretely in witnesses.
* `datetime` values are modelled as epoch naturals; the external parsers
  (`datetime.strptime`, `MediaInfo`) are likewise parameters or pre-parsed
  environment fields.
* Exact rational arithmetic (`ℚ`) stands for Python float arithmetic; every
  concrete input exercised below is exactly representable.
-/

namespace PhotoDB

/-- First-match association-list lookup, the model of Python `dict.get(k)`
(returns `none` when the key is absent). -/
def pyLookup {α β : Type} [DecidableEq α] (l : List (α × β)) (k : α) : Option β :=
  (l.find? (fun e => decide (e.1 = k))).map (·.2)

/-- The model of Python `d[k] = v` on a dict: replace any existing binding of
`k` and bind `k` to `v`.  Representation: cons the new binding and drop stale
ones; observationally identical to in-place update under `pyLookup`. -/
def pySetItem {α β : Type} [DecidableEq α] (l : List (α × β)) (k : α) (v : β) :
    List (α × β) :=
  (k, v) :: l.filter (fun e => decide (e.1 ≠ k))

theorem pyLookup_pySetItem_self {α β : Type} [DecidableEq α]
    (l : List (α × β)) (k : α) (v : β) :
    pyLookup (pySetItem l k v) k = some v := by
  simp [pyLookup, pySetItem]

theorem pyLookup_pySetItem_other {α β : Type} [DecidableEq α]
    (l : List (α × β)) (k k' : α) (v : β) (hk : k' ≠ k) :
    pyLookup (pySetItem l k v) k' = pyLookup l k' := by
  simp only [pyLookup, pySetItem]
  rw [List.find?_cons_of_neg _ (by simp [Ne.symm hk])]
  induction l with
  | nil => rfl
  | cons e t ih =>
    by_cases he : e.1 = k
    · rw [List.filter_cons_of_neg (by simp [he])]
      rw [List.find?_cons_of_neg _ (by simp [he, Ne.symm hk])]
      exact ih
    · rw [List.filter_cons_of_pos (by simp [he])]
      by_cases he' : e.1 = k'
      · rw [List.find?_cons_of_pos _ (by simp [he']), List.find?_cons_of_pos _ (by simp [he'])]
      · rw [List.find?_cons_of_neg _ (by simp [he']), List.find?_cons_of_neg _ (by simp [he'])]
        exact ih

/-! ## DBMWrapper (src/dbmwrapper.py)

The store keeps serialized-byte keys mapped to serialized-byte values, the
model of the open `dbm` handle.  The store-wide `threading.Lock` serializes
each operation; in this sequential model every operation is already atomic.
-/

structure DBMState where
  entries : List (List Nat × List Nat)
deriving DecidableEq

/-- `DBMWrapper.save_value(key, value)`: serialize both, store unconditionally
(`self.db[serialized_key] = serialized_value`), return `True`.  The `except`
branch (I/O failure returning `False`) is the only failure path and is not
reachable in the pure model. -/
def save_value {V : Type} (ser : V → List Nat) (st : DBMState) (key value : V) :
    Bool × DBMState :=
  (true, ⟨pySetItem st.entries (ser key) (ser value)⟩)

/-- `DBMWrapper.load_value(key)`: serialize the key, fetch with `db.get`, and
return `deserialize(v) if v else None` — absent keys and empty byte strings
both yield `None`. -/
def load_value {V : Type} (ser : V → List Nat) (deser : List Nat → V)
    (st : DBMState) (key : V) : Option V :=
  match pyLookup st.entries (ser key) with
  | none => none
  | some bytes => if bytes = [] then none else some (deser bytes)

/-- Concrete serializer used by witnesses: stands for `pickle.dumps` on
naturals.  Injective and never the empty byte string, as pickle is. -/
def serNat (n : Nat) : List Nat := [n + 1]

/-- Concrete deserializer used by witnesses: left inverse of `serNat`. -/
def deserNat (l : List Nat) : Nat := l.headD 1 - 1

end PhotoDB

namespace PhotoDB

/-- C10: Store round-trip: if `save_value(k, v)` returns success then a
subsequent `load_value(k)` with no intervening write to `k` returns a value
equal to `v` — including falsy values such as an empty dictionary, whose
pickled form is still a non-empty byte string. -/
theorem save_value_load_value_roundtrip {V : Type} (ser : V → List Nat)
    (deser : List Nat → V) (st : DBMState) (k v : V)
    (hround : deser (ser v) = v) (hne : ser v ≠ [])
    (hsucc : (save_value ser st k v).1 = true) :
    load_value ser deser (save_value ser st k v).2 k = some v := by
  simp only [save_value, load_value, pyLookup_pySetItem_self]
  simp [hne, hround]

/-- Witness for C10 at a concrete input: the key `3` bound to the value `0`
(`0` plays the falsy "empty dict": `serNat 0 = [1] ≠ []`) round-trips through
a store that already held other keys. -/
theorem save_value_load_value_roundtrip_witness :
    load_value serNat deserNat (save_value serNat ⟨[([9], [9])]⟩ 3 0).2 3 = some 0 :=
  save_value_load_value_roundtrip serNat deserNat ⟨[([9], [9])]⟩ 3 0
    (by decide) (by decide) (by decide)

/-- C2 counterexample: the store's `save_value` is not a conditional insert.
With key `0` already present (bound to `5`), `save_value 0 7` returns success
(`true`, not failure) and replaces the stored value. -/
theorem save_value_overwrite_counterexample :
    load_value serNat deserNat ⟨[([1], [6])]⟩ 0 = some 5 ∧
    (save_value serNat ⟨[([1], [6])]⟩ 0 7).1 = true ∧
    load_value serNat deserNat (save_value serNat ⟨[([1], [6])]⟩ 0 7).2 0 = some 7 := by
  refine ⟨by decide, by decide, by decide⟩

/-- C2 amended: `save_value` takes no `overwrite` flag; it is an unconditional
upsert.  Invoked when the key is already present it still returns success and
replaces the stored value with the new one, leaving every other key unchanged. -/
theorem save_value_unconditional_upsert {V : Type} (ser : V → List Nat)
    (deser : List Nat → V) (st : DBMState) (k v old : V)
    (hpresent : load_value ser deser st k = some old)
    (hround : deser (ser v) = v) (hne : ser v ≠ []) :
    (save_value ser st k v).1 = true ∧
    load_value ser deser (save_value ser st k v).2 k = some v ∧
    ∀ k' : V, ser k' ≠ ser k →
      load_value ser deser (save_value ser st k v).2 k' = load_value ser deser st k' := by
  refine ⟨rfl, ?_, ?_⟩
  · simp only [save_value, load_value, pyLookup_pySetItem_self]
    simp [hne, hround]
  · intro k' hk'
    simp only [save_value, load_value]
    rw [pyLookup_pySetItem_other _ _ _ _ hk']

/-- Witness for C2's amended claim: key `0` is present bound to `5`;
`save_value 0 7` succeeds, the stored value becomes `7`, and the unrelated
key `4` keeps its value `9`. -/
theorem save_value_unconditional_upsert_witness :
    (save_value serNat ⟨[([1], [6]), ([5], [10])]⟩ 0 7).1 = true ∧
    load_value serNat deserNat (save_value serNat ⟨[([1], [6]), ([5], [10])]⟩ 0 7).2 0 = some 7 ∧
    load_value serNat deserNat (save_value serNat ⟨[([1], [6]), ([5], [10])]⟩ 0 7).2 4 = some 9 := by
  have h := save_value_unconditional_upsert serNat deserNat ⟨[([1], [6]), ([5], [10])]⟩ 0 7 5
    (by decide) (by decide) (by decide)
  refine ⟨h.1, h.2.1, ?_⟩
  have h4 := h.2.2 4 (by decide)
  rw [h4]; decide

end PhotoDB

namespace PhotoDB

/-! ## EXIF data model (src/photodb.py)

`PIL.Image._getexif()` returns `None` or a dict from numeric tag ids to
values; the GPS IFD (tag 34853) is itself a dict whose values are strings
(hemisphere refs) or rational triples (degrees/minutes/seconds). -/

/-- A value inside the GPS IFD dict: a string such as `"N"`/`"S"`/`"E"`/`"W"`,
or a tuple of rationals (PIL hands back `IFDRational`s). -/
inductive GpsVal
  | vstr (s : String)
  | vtuple (l : List ℚ)
deriving DecidableEq

/-- A value of the top-level EXIF dict: a string (e.g. tag 36867, the
`DateTimeOriginal` string), the GPS IFD sub-dict (tag 34853), or a number. -/
inductive ExifVal
  | vstr (s : String)
  | vgps (m : List (Nat × GpsVal))
  | vnum (q : ℚ)
deriving DecidableEq

/-- Python truthiness of a GPS-IFD value: empty string and empty tuple are
falsy. -/
def GpsVal.truthy : GpsVal → Bool
  | .vstr s => ¬ s.isEmpty
  | .vtuple l => ¬ l.isEmpty

/-- `get_coords(exif_data)` (src/photodb.py lines 86–105): returns `None` when
the EXIF dict is falsy or tag 34853 is absent; reads entries 2/4 of the GPS
IFD with defaults `()`, bails out if either is falsy, converts each
degrees/minutes/seconds triple via `((((d*60)+m)*60)+s)/60/60`, and negates
when entry 1 is `"S"` (latitude) resp. entry 3 is `"W"` (longitude).
A triple shorter than three entries or a non-dict tag-34853 value raises in
Python; those shapes are mapped to `none` here and never instantiated. -/
def get_coords (exif_data : Option (List (Nat × ExifVal))) : Option (ℚ × ℚ) :=
  match exif_data with
  | none => none
  | some m =>
    if m.isEmpty then none
    else
      match pyLookup m 34853 with
      | none => none
      | some (.vstr _) => none
      | some (.vnum _) => none
      | some (.vgps gps) =>
        let north := (pyLookup gps 2).getD (.vtuple [])
        let east := (pyLookup gps 4).getD (.vtuple [])
        if ¬ north.truthy ∨ ¬ east.truthy then none
        else
          match north, east with
          | .vtuple (n0 :: n1 :: n2 :: _), .vtuple (e0 :: e1 :: e2 :: _) =>
            let lat := ((((n0 * 60) + n1) * 60) + n2) / 60 / 60
            let long := ((((e0 * 60) + e1) * 60) + e2) / 60 / 60
            let lat := if (pyLookup gps 1).getD (.vstr "") = .vstr "S" then -lat else lat
            let long := if (pyLookup gps 3).getD (.vstr "") = .vstr "W" then -long else long
            some (lat, long)
          | _, _ => none

/-- `get_timestamp(exif_data)` (src/photodb.py lines 108–118): `None` when the
dict is falsy or tag 36867 is absent or falsy; otherwise the
`datetime.strptime` parse of the tag string.  `strptime` is an external
collaborator, passed in as a parameter producing epoch naturals; a non-string
tag value would raise in Python and is never instantiated. -/
def get_timestamp (strptime : String → Nat)
    (exif_data : Option (List (Nat × ExifVal))) : Option Nat :=
  match exif_data with
  | none => none
  | some m =>
    if m.isEmpty then none
    else
      match pyLookup m 36867 with
      | some (.vstr s) => if s.isEmpty then none else some (strptime s)
      | _ => none

end PhotoDB

namespace PhotoDB

/-- The d/m/s-to-decimal conversion that `get_coords` computes equals the
spec's `degrees + minutes/60 + seconds/3600` form. -/
theorem dms_formula (d m s : ℚ) :
    ((((d * 60) + m) * 60) + s) / 60 / 60 = d + m / 60 + s / 3600 := by
  field_simp
  ring

/-- C6: coordinate extraction converts a degrees/minutes/seconds triple to
`degrees + minutes/60 + seconds/3600`, negating latitude exactly when the
hemisphere ref (GPS entry 1) is `"S"` and longitude exactly when entry 3 is
`"W"`. -/
theorem get_coords_dms_formula (m : List (Nat × ExifVal))
    (gps : List (Nat × GpsVal)) (n0 n1 n2 e0 e1 e2 : ℚ)
    (hm : ¬ m.isEmpty) (hgps : pyLookup m 34853 = some (.vgps gps))
    (hn : pyLookup gps 2 = some (.vtuple [n0, n1, n2]))
    (he : pyLookup gps 4 = some (.vtuple [e0, e1, e2])) :
    get_coords (some m) =
      some
        ((if (pyLookup gps 1).getD (.vstr "") = GpsVal.vstr "S" then
            -(n0 + n1 / 60 + n2 / 3600) else n0 + n1 / 60 + n2 / 3600),
         (if (pyLookup gps 3).getD (.vstr "") = GpsVal.vstr "W" then
            -(e0 + e1 / 60 + e2 / 3600) else e0 + e1 / 60 + e2 / 3600)) := by
  simp only [get_coords, hm, hgps, hn, he, if_false, Bool.false_eq_true,
    Option.getD_some, GpsVal.truthy, List.isEmpty_cons, not_false_iff, dms_formula]
  simp [dms_formula]

/-- Witness for C6 at the spec's own concrete inputs: latitude triple
`(10,30,0)` without the south flag and longitude triple `(20,15,0)` with the
west flag yield `(+10.5, -20.25)`. -/
theorem get_coords_dms_formula_witness :
    get_coords (some [(34853, .vgps
        [(2, .vtuple [10, 30, 0]), (4, .vtuple [20, 15, 0]), (3, .vstr "W")])]) =
      some ((10.5 : ℚ), (-20.25 : ℚ)) := by
  have h := get_coords_dms_formula
    [(34853, .vgps [(2, .vtuple [10, 30, 0]), (4, .vtuple [20, 15, 0]), (3, .vstr "W")])]
    [(2, .vtuple [10, 30, 0]), (4, .vtuple [20, 15, 0]), (3, .vstr "W")]
    10 30 0 20 15 0 (by decide) (by decide) (by decide) (by decide)
  rw [h, if_neg (by decide), if_pos (by decide)]
  norm_num

end PhotoDB

namespace PhotoDB

/-! ## Metadata resolver: the timestamp chain (src/photodb.py) -/

/-- Result of `get_media_info(path)` restricted to what `get_metadata`
consumes: the parsed `encoded_date` of the General track, already converted
by `datetime.strptime` (epoch natural), or `none` when the file carries no
such date. -/
structure MediaMetadata where
  creation_date : Option Nat
deriving DecidableEq

/-- The per-file facts `get_metadata` draws on.  `exif_data` is
`PIL.Image._getexif()`'s result (`none` on `UnidentifiedImageError` /
`AttributeError`); `media_info` is `none` exactly when `get_media_info`
swallowed an exception and returned `None`; `ctime`/`mtime` are
`os.path.getctime` / `os.path.getmtime` (`none` when the call raises). -/
structure FileCtx where
  exif_data : Option (List (Nat × ExifVal))
  media_info : Option MediaMetadata
  ctime : Option Nat
  mtime : Option Nat
deriving DecidableEq

/-- Python truthiness of `exif_data` in `if exif_data:`: `None` and the empty
dict are falsy. -/
def truthyExif : Option (List (Nat × ExifVal)) → Bool
  | none => false
  | some m => ¬ m.isEmpty

/-- `get_creation_timestamp(file_path)` (src/photodb.py lines 210–225):
`datetime.fromtimestamp(min(getctime, getmtime))`, or `None` when the OS
calls raise (logged).  `fromtimestamp` is order-preserving, modelled as the
identity on epoch naturals. -/
def get_creation_timestamp (ctx : FileCtx) : Option Nat :=
  match ctx.ctime, ctx.mtime with
  | some c, some m => some (min c m)
  | _, _ => none

/-- Outcome of a Python call: a returned value, or an uncaught exception
escaping the function. -/
inductive PyResult (α : Type)
  | ok (a : α)
  | raised
deriving DecidableEq

/-- The timestamp-resolution portion of `get_metadata(path)` (src/photodb.py
lines 346–366): `if exif_data: timestamp = get_timestamp(exif_data) else:
media_info = get_media_info(path); timestamp = media_info.get("creation_date")`,
then `if not timestamp: timestamp = get_creation_timestamp(path)`.
When `get_media_info` returned `None`, the attribute access
`media_info.get(...)` raises `AttributeError`, modelled as `PyResult.raised`. -/
def get_metadata_timestamp (strptime : String → Nat) (ctx : FileCtx) :
    PyResult (Option Nat) :=
  let ts0 : PyResult (Option Nat) :=
    if truthyExif ctx.exif_data then
      .ok (get_timestamp strptime ctx.exif_data)
    else
      match ctx.media_info with
      | none => .raised
      | some mi => .ok mi.creation_date
  match ts0 with
  | .raised => .raised
  | .ok (some t) => .ok (some t)
  | .ok none => .ok (get_creation_timestamp ctx)

end PhotoDB

namespace PhotoDB

/-- Concrete context refuting C4: embedded tags exist (tag 400) but contain no
timestamp (no tag 36867), the container metadata carries creation date `9999`,
and the filesystem times are `100`/`50`. -/
def ctxC4 : FileCtx :=
  { exif_data := some [(400, .vstr "junk")]
  , media_info := some ⟨some 9999⟩
  , ctime := some 100
  , mtime := some 50 }

/-- C4 counterexample: on a file whose embedded tags exist but contain no
timestamp, and whose container creation date (`9999`) is present, the code
resolves the timestamp to the filesystem time `min 100 50 = 50` — the
container date is never tried, contradicting the claimed step (b). -/
theorem timestamp_chain_counterexample :
    get_metadata_timestamp (fun _ => 0) ctxC4 = .ok (some 50) ∧
    get_metadata_timestamp (fun _ => 0) ctxC4 ≠ .ok (some 9999) := by
  refine ⟨by decide, by decide⟩

/-- C4 amended: when embedded tags are present (truthy) but contain no
timestamp, resolution falls directly to step (c), the earlier of the
filesystem creation and modification times; the container creation date is
consulted only when no embedded tags are present.  (The conclusion does not
mention `media_info` at all: whatever the container says is ignored on this
branch.) -/
theorem timestamp_chain_exif_present_no_timestamp_falls_to_fs
    (strptime : String → Nat) (ctx : FileCtx)
    (hex : truthyExif ctx.exif_data = true)
    (hnots : get_timestamp strptime ctx.exif_data = none) :
    get_metadata_timestamp strptime ctx = .ok (get_creation_timestamp ctx) := by
  simp [get_metadata_timestamp, hex, hnots]

/-- Witness for C4's amended claim at the concrete context `ctxC4`. -/
theorem timestamp_chain_exif_present_no_timestamp_falls_to_fs_witness :
    get_metadata_timestamp (fun _ => 0) ctxC4 = .ok (some 50) := by
  have h := timestamp_chain_exif_present_no_timestamp_falls_to_fs
    (fun _ => 0) ctxC4 (by decide) (by decide)
  rw [h]; decide

end PhotoDB

namespace PhotoDB

/-! ## Location resolution (src/photodb.py)

`get_address` rounds the coordinate, consults the geocode cache (a second
`DBMWrapper` table), on miss calls the rate-limited `get_location`, then
formats a display string from the address dict. -/

/-- Python's banker's rounding of a rational to an integer
(ties to the even integer), the semantics of builtin `round`. -/
def round_half_even (x : ℚ) : ℤ :=
  let f := ⌊x⌋
  let r := x - f
  if r < 1 / 2 then f
  else if 1 / 2 < r then f + 1
  else if f % 2 = 0 then f else f + 1

/-- Python `round(x, precision)`. -/
def pyRound (x : ℚ) (precision : Nat) : ℚ :=
  (round_half_even (x * 10 ^ precision) : ℚ) / 10 ^ precision

/-- `round_coordinates(coordinate_tuple, precision=6)` (src/photodb.py):
round both coordinates of the pair to 6 decimal places. -/
def round_coordinates (c : ℚ × ℚ) : ℚ × ℚ :=
  (pyRound c.1 6, pyRound c.2 6)

/-- `tuple_to_dbm_key(coordinate_tuple, precision=6)` (src/photodb.py):
round the coordinates (again), render the tuple as a string, and encode it.
The rendering stands for Python `str((lat, long))` followed by utf-8
encoding; rationals print their exact value, preserving injectivity. -/
def tuple_to_dbm_key (c : ℚ × ℚ) : String :=
  let r := round_coordinates c
  "(" ++ toString r.1 ++ ", " ++ toString r.2 ++ ")"

/-- The geocode cache: the `DBMWrapper` store specialized to coordinate-string
keys and address-dict values.  The pickle round trip is collapsed (justified
by `save_value_load_value_roundtrip`: pickled dicts are non-empty byte
strings, so `load_value` returns exactly the stored dict). -/
def GeoDB := List (String × List (String × String))

/-- Cache read: `db.load_value(key)` on the geocode table. -/
def geoLoad (db : GeoDB) (k : String) : Option (List (String × String)) :=
  pyLookup db k

/-- Cache write: `db.save_value(key, address)` on the geocode table. -/
def geoSave (db : GeoDB) (k : String) (v : List (String × String)) : GeoDB :=
  pySetItem db k v

/-- Collaborator context for `get_address`: the configured `locations`
override table and the external reverse geocoder.  `geocode c = none` models
`geo.reverse` raising or timing out; `some fields` is the raw address dict. -/
structure GeoEnv where
  locations : List (String × String)
  geocode : ℚ × ℚ → Option (List (String × String))

/-- `get_location(coords)` (src/photodb.py lines 164–172): call the external
reverse geocoder; any exception yields the empty dict.  (The `@sleep_and_retry`
/ `@limits` rate limiting is a pure timing control with no effect on the
value returned and is not modelled.) -/
def get_location (env : GeoEnv) (coords : ℚ × ℚ) : List (String × String) :=
  (env.geocode coords).getD []

/-- Python `s.startswith(pre)`: code-point-level prefix test. -/
def pyStartsWith (s pre : String) : Bool :=
  pre.data.isPrefixOf s.data

/-- Python `s[n:]`: drop the first `n` code points. -/
def pyDrop (s : String) (n : Nat) : String :=
  ⟨s.data.drop n⟩

/-- Python truthiness of a string-or-`None` value: `None` and `""` are falsy. -/
def pyTruthyS : Option String → Bool
  | none => false
  | some s => ¬ s.isEmpty

/-- Python f-string interpolation of a string-or-`None` value: `None` prints
as `"None"`. -/
def pyShow : Option String → String
  | none => "None"
  | some s => s

/-- `get_address(coords)` (src/photodb.py lines 175–207).  Returns the
resolved display string (`None` only when `coords` is `None`) together with
the possibly-updated geocode cache.  Mirrors the source line by line:
cache lookup with `if not address:` (miss on absent key or cached empty
dict), fetch-and-cache on miss, city fallback to town then county, the
`"US-"` strip on the ISO3166-2-lvl4 state field, the exact-override table
keyed by `f"{house_number} {road}, {city}, {state}"`, and the
road/city display forms. -/
def get_address (env : GeoEnv) (db : GeoDB) (coords : Option (ℚ × ℚ)) :
    Option String × GeoDB :=
  match coords with
  | none => (none, db)
  | some c0 =>
    let c := round_coordinates c0
    let key := tuple_to_dbm_key c
    let cached := geoLoad db key
    let fetched := get_location env c
    let (address, db1) :=
      match cached with
      | none => (fetched, geoSave db key fetched)
      | some a => if a.isEmpty then (fetched, geoSave db key fetched) else (a, db)
    let house_number := pyLookup address "house_number"
    let road := pyLookup address "road"
    let city := pyLookup address "city"
    let city := if ¬ pyTruthyS city then pyLookup address "town" else city
    let city := if ¬ pyTruthyS city then pyLookup address "county" else city
    let state := (pyLookup address "ISO3166-2-lvl4").getD ""
    let state := if pyStartsWith state "US-" then pyDrop state 3 else state
    let lookup := pyShow house_number ++ " " ++ pyShow road ++ ", " ++
      pyShow city ++ ", " ++ state
    match pyLookup env.locations lookup with
    | some v => (some v, db1)
    | none =>
      if pyTruthyS road then
        (some (pyShow road ++ ", " ++ pyShow city ++ ", " ++ state), db1)
      else
        (some (pyShow city ++ ", " ++ state), db1)

end PhotoDB

namespace PhotoDB

theorem pyLookup_singleton {α β : Type} [DecidableEq α] (k : α) (v : β) :
    pyLookup [(k, v)] k = some v := by simp [pyLookup]

/-- A run with no configured location overrides and an external geocoder that
always fails (raises or times out). -/
def envFail : GeoEnv := ⟨[], fun _ => none⟩

/-- C7 counterexample: with an empty cache and a failing geocoder, the file's
resolved location for coordinate `(1, 2)` is the placeholder display string
`"None, "` (the f-string rendering of the all-missing address), not an absent
value. -/
theorem get_address_failure_placeholder_counterexample :
    (get_address envFail [] (some (1, 2))).1 = some "None, " ∧
    (get_address envFail [] (some (1, 2))).1 ≠ none := by
  refine ⟨by decide, by decide⟩

/-- C7 amended: on reverse-geocode failure the raw address is the empty dict
and processing continues normally (the empty dict is even cached), but the
resolved location is not absent: unless the placeholder key
`"None None, None, "` is overridden in the locations table, `get_address`
returns the placeholder display string `"None, "`. -/
theorem get_address_failure_returns_placeholder (env : GeoEnv) (db : GeoDB)
    (c : ℚ × ℚ)
    (hmiss : geoLoad db (tuple_to_dbm_key (round_coordinates c)) = none)
    (hfail : env.geocode (round_coordinates c) = none)
    (htable : pyLookup env.locations "None None, None, " = none) :
    get_address env db (some c) =
      (some "None, ", geoSave db (tuple_to_dbm_key (round_coordinates c)) []) := by
  simp only [get_address, hmiss, get_location, hfail, Option.getD_none]
  simp only [pyLookup] at htable
  have hsw : pyStartsWith "" "US-" = false := by decide
  simp [pyLookup, pyTruthyS, pyShow, htable, hsw]

/-- Witness for C7's amended claim at coordinate `(1, 2)` with an empty cache
and the always-failing geocoder. -/
theorem get_address_failure_returns_placeholder_witness :
    get_address envFail [] (some (1, 2)) =
      (some "None, ", geoSave [] (tuple_to_dbm_key (round_coordinates (1, 2))) []) :=
  get_address_failure_returns_placeholder envFail [] (1, 2) rfl rfl rfl

/-- A cached address whose state field carries the Canadian prefix `"CA-"`. -/
def addrCA : List (String × String) :=
  [("road", "Main St"), ("city", "Toronto"), ("ISO3166-2-lvl4", "CA-ON")]

/-- Geocode cache holding `addrCA` under the key for coordinate `(1, 2)`. -/
def dbCA : GeoDB := [(tuple_to_dbm_key (round_coordinates (1, 2)), addrCA)]

/-- C8 counterexample: a state field `"CA-ON"` — a two-letter country-code
prefix of the form `"XX-"` — is NOT stripped: the display string keeps
`"CA-ON"` verbatim instead of the claimed `"ON"`. -/
theorem get_address_non_us_prefix_counterexample :
    (get_address envFail dbCA (some (1, 2))).1 = some "Main St, Toronto, CA-ON" ∧
    ("Main St, Toronto, CA-ON" : String) ≠ "Main St, Toronto, ON" := by
  constructor
  · have hhit : geoLoad dbCA (tuple_to_dbm_key (round_coordinates (1, 2))) = some addrCA :=
      pyLookup_singleton _ _
    simp only [get_address, hhit]
    simp [addrCA, pyLookup, pyTruthyS, pyShow, envFail, List.find?]
    decide
  · decide

/-- C8 amended: only the literal prefix `"US-"` is stripped from the state
field before it appears in the display string; any other leading two-letter
country code is left intact.  Stated on the cache-hit road/city path with no
configured overrides: the emitted state component is `s[3:]` exactly when `s`
starts with `"US-"`, else `s` itself. -/
theorem get_address_strips_only_us_prefix (env : GeoEnv) (db : GeoDB)
    (c : ℚ × ℚ) (addr : List (String × String)) (r ct s : String)
    (hhit : geoLoad db (tuple_to_dbm_key (round_coordinates c)) = some addr)
    (hne : addr.isEmpty = false)
    (hhouse : pyLookup addr "house_number" = none)
    (hroad : pyLookup addr "road" = some r) (hr : r.isEmpty = false)
    (hcity : pyLookup addr "city" = some ct) (hct : ct.isEmpty = false)
    (hstate : pyLookup addr "ISO3166-2-lvl4" = some s)
    (henv : env.locations = []) :
    (get_address env db (some c)).1 =
      some (r ++ ", " ++ ct ++ ", " ++ (if pyStartsWith s "US-" then pyDrop s 3 else s)) := by
  simp only [get_address, hhit, hne, hhouse, hroad, hcity, hstate, pyTruthyS, pyShow,
    hr, hct, henv, Option.getD_some, Bool.false_eq_true, if_false,
    Bool.not_false, if_true, ite_false, ite_true]
  simp [hct, pyLookup]

/-- A cached address whose state field carries the `"US-"` prefix. -/
def addrWA : List (String × String) :=
  [("road", "Main St"), ("city", "Seattle"), ("ISO3166-2-lvl4", "US-WA")]

/-- Geocode cache holding `addrWA` under the key for coordinate `(1, 2)`. -/
def dbWA : GeoDB := [(tuple_to_dbm_key (round_coordinates (1, 2)), addrWA)]

/-- Witness for C8's amended claim: the `"US-"` prefix of `"US-WA"` is
stripped, yielding `"Main St, Seattle, WA"`. -/
theorem get_address_strips_only_us_prefix_witness :
    (get_address envFail dbWA (some (1, 2))).1 = some "Main St, Seattle, WA" := by
  have h := get_address_strips_only_us_prefix envFail dbWA (1, 2) addrWA
    "Main St" "Seattle" "US-WA"
    (pyLookup_singleton _ _) (by decide) (by decide) (by decide) (by decide)
    (by decide) (by decide) (by decide) rfl
  rw [h]; decide

end PhotoDB

namespace PhotoDB

/-! ## Collision-safe naming (src/photodb.py, `generate_unique_filename`)

The filesystem is modelled as the list of existing paths (`os.path.exists` is
membership).  The source's `while True` loop is embedded with explicit fuel;
`some r` is the value returned by a terminating run. -/

/-- Index of the last occurrence of `c` in `l`, the model of Python
`str.rfind` (absent ↦ `-1` handled at the call site). -/
def lastIndexOf (l : List Char) (c : Char) : Option Nat :=
  (List.range l.length).foldl (fun acc i => if l.get? i = some c then some i else acc) none

/-- `os.path.splitext`: split at the last dot of the final component, unless
every character of the component before that dot is itself a dot (leading-dot
names such as `.bashrc` keep an empty extension). -/
def splitext (p : String) : String × String :=
  let l := p.data
  let sepIndex : Int := match lastIndexOf l '/' with | none => -1 | some i => (i : Int)
  let dotIndex : Int := match lastIndexOf l '.' with | none => -1 | some i => (i : Int)
  if sepIndex < dotIndex ∧
      (List.range l.length).any (fun i => decide (sepIndex < (i : Int)) &&
        decide ((i : Int) < dotIndex) && decide (l.get? i ≠ some '.')) then
    (⟨l.take dotIndex.toNat⟩, ⟨l.drop dotIndex.toNat⟩)
  else (p, "")

/-- Python `f"{n:03d}"`: decimal digits left-padded with zeros to width 3. -/
def pad3 (n : Nat) : String :=
  ⟨List.replicate (3 - (Nat.toDigits 10 n).length) '0' ++ Nat.toDigits 10 n⟩

/-- The candidate name `f"{file_name}_{counter:03d}{file_ext}"` tried by the
collision loop. -/
def candidate (file_name file_ext : String) (counter : Nat) : String :=
  file_name ++ "_" ++ pad3 counter ++ file_ext

/-- The `while True` loop of `generate_unique_filename`, with fuel. -/
def findUnique (fs : List String) (file_name file_ext : String) :
    Nat → Nat → Option String
  | _, 0 => none
  | counter, fuel + 1 =>
    let new_file_path := candidate file_name file_ext counter
    if new_file_path ∈ fs then findUnique fs file_name file_ext (counter + 1) fuel
    else some new_file_path

/-- `generate_unique_filename(file_path)` (src/photodb.py lines 310–322):
return the path untouched when it does not exist; otherwise split off the
extension and count up from 1 until a free candidate is found. -/
def generate_unique_filename (fs : List String) (file_path : String) (fuel : Nat) :
    Option String :=
  if file_path ∈ fs then
    findUnique fs (splitext file_path).1 (splitext file_path).2 1 fuel
  else some file_path

theorem findUnique_spec (fs : List String) (fn fe : String) :
    ∀ fuel counter res, findUnique fs fn fe counter fuel = some res →
      ∃ n, counter ≤ n ∧ res = candidate fn fe n ∧ res ∉ fs ∧
        ∀ m, counter ≤ m → m < n → candidate fn fe m ∈ fs := by
  intro fuel
  induction fuel with
  | zero => intro counter res h; simp [findUnique] at h
  | succ fuel ih =>
    intro counter res h
    simp only [findUnique] at h
    by_cases hc : candidate fn fe counter ∈ fs
    · rw [if_pos hc] at h
      obtain ⟨n, hn1, hn2, hn3, hn4⟩ := ih (counter + 1) res h
      refine ⟨n, by omega, hn2, hn3, ?_⟩
      intro m hm1 hm2
      rcases Nat.eq_or_lt_of_le hm1 with heq | hlt
      · rwa [heq] at hc
      · exact hn4 m hlt hm2
    · rw [if_neg hc] at h
      obtain rfl : candidate fn fe counter = res := by
        simpa using h
      exact ⟨counter, le_refl _, rfl, hc,
        fun m hm1 hm2 => absurd (lt_of_le_of_lt hm1 hm2) (lt_irrefl _)⟩

/-- C9: when the destination already exists, the chosen name is
`name_NNN.ext` — the zero-padded suffix inserted before the extension — for
the least counter `n ≥ 1` whose candidate is free; every smaller counter's
candidate collides. -/
theorem generate_unique_filename_increments_until_free (fs : List String)
    (p : String) (fuel : Nat) (res : String)
    (hp : p ∈ fs)
    (hres : generate_unique_filename fs p fuel = some res) :
    ∃ n, 1 ≤ n ∧
      res = candidate (splitext p).1 (splitext p).2 n ∧
      res ∉ fs ∧
      ∀ m, 1 ≤ m → m < n → candidate (splitext p).1 (splitext p).2 m ∈ fs := by
  rw [generate_unique_filename, if_pos hp] at hres
  exact findUnique_spec fs _ _ fuel 1 res hres

/-- Witness for C9 at the spec's concrete scenario: the first collision on
`name.ext` yields `name_001.ext`, a further collision yields `name_002.ext`,
and the main theorem applies to the second run. -/
theorem generate_unique_filename_increments_until_free_witness :
    generate_unique_filename ["name.ext"] "name.ext" 100 = some "name_001.ext" ∧
    generate_unique_filename ["name.ext", "name_001.ext"] "name.ext" 100 =
      some "name_002.ext" ∧
    (∃ n, 1 ≤ n ∧
      ("name_002.ext" : String) = candidate (splitext "name.ext").1 (splitext "name.ext").2 n ∧
      ("name_002.ext" : String) ∉ (["name.ext", "name_001.ext"] : List String) ∧
      ∀ m, 1 ≤ m → m < n →
        candidate (splitext "name.ext").1 (splitext "name.ext").2 m ∈
          (["name.ext", "name_001.ext"] : List String)) :=
  ⟨by decide, by decide,
   generate_unique_filename_increments_until_free ["name.ext", "name_001.ext"]
     "name.ext" 100 "name_002.ext" (by decide) (by decide)⟩

end PhotoDB

namespace PhotoDB

/-! ## Duplicate relocation (src/photodb.py, `move_to_duplicate`) -/

/-- Python `s.lstrip(chars)`: remove the leading characters of `s` that are
drawn from the character SET `chars` — not prefix removal. -/
def pyLstrip (s chars : String) : String :=
  ⟨s.data.dropWhile (fun c => decide (c ∈ chars.data))⟩

/-- `os.path.join(a, b)`: an absolute `b` replaces `a`; otherwise the parts
are joined, inserting a `/` separator unless `a` is empty or already ends in
one. -/
def joinPath (a b : String) : String :=
  if pyStartsWith b "/" then b
  else if a = "" ∨ a.data.getLast? = some '/' then a ++ b
  else a ++ "/" ++ b

/-- The destination computed by `move_to_duplicate(path)` (src/photodb.py
lines 340–343) before `move_file`'s collision handling:
`os.path.join(cfg["duplicate_dir"], path.lstrip(cfg["main_dir"]))`. -/
def move_to_duplicate_dest (main_dir duplicate_dir path : String) : String :=
  joinPath duplicate_dir (pyLstrip path main_dir)

/-- C5: with archive root `/photos` and duplicates dir `/dup`, the duplicate
`/photos/summer/pic.jpg` — relative path `summer/pic.jpg` — is sent to
`/dup/ummer/pic.jpg`: `lstrip` strips by character set, eating the leading
`s` of `summer`, so the relative path is NOT preserved. -/
theorem move_to_duplicate_mangles_relative_path :
    move_to_duplicate_dest "/photos" "/dup" "/photos/summer/pic.jpg" =
      "/dup/ummer/pic.jpg" ∧
    ("/dup/ummer/pic.jpg" : String) ≠ "/dup/summer/pic.jpg" := by
  refine ⟨by decide, by decide⟩

/-! ## HEIC conversion failure (src/photodb.py, `convert_heic_to_jpeg`) -/

/-- Result of running `convert_heic_to_jpeg`: a returned JPEG path, or
process termination with an exit status (`sys.exit`). -/
inductive ConvResult
  | ok (path : String)
  | exit (code : Nat)
deriving DecidableEq

/-- Collaborators of `convert_heic_to_jpeg`: the temporary JPEG path built
from `tempfile.mkdtemp()` and the basename, and whether the Wand conversion
succeeds on a given file. -/
structure HeicEnv where
  temp_jpeg_path : String → String
  wand_ok : String → Bool

/-- `convert_heic_to_jpeg(heic_file)` (src/photodb.py lines 287–307): on
success return the temp JPEG path; on any exception the `except` branch logs
and calls `sys.exit(1)` — the `return None` after it is unreachable, even
though the caller `import_file` checks for a `None` result. -/
def convert_heic_to_jpeg (env : HeicEnv) (heic_file : String) : ConvResult :=
  if env.wand_ok heic_file then .ok (env.temp_jpeg_path heic_file)
  else .exit 1

/-- An environment whose Wand conversion always raises. -/
def envHeicFail : HeicEnv := ⟨fun p => "/tmp/conv/" ++ p, fun _ => false⟩

/-- C3: a single failed HEIC conversion terminates the process with exit
status 1 — not the claimed log-and-skip with final status 0. -/
theorem convert_heic_to_jpeg_exits_on_failure :
    convert_heic_to_jpeg envHeicFail "IMG_0001.HEIC" = ConvResult.exit 1 ∧
    ConvResult.exit 1 ≠ ConvResult.exit 0 := by
  refine ⟨by decide, by decide⟩

/-! ## Directory synchronizer (src/photodb.py, `process_dir`)

The filesystem is a structure of query functions; the store's
watermark entries (folder path ↦ stored mtime, kept as `str(mtime)` in the
real store and compared through `float()`) are modelled as a rational-valued
association list, and the per-file work (`process_file` / `import_file`,
which touch only fingerprint keys, disjoint from folder-path keys) is
abstracted as a state transformer `pf`.  The recursion over subdirectories
is embedded with fuel; every finite tree is fully traversed given enough
fuel. -/

structure FS where
  listdir : String → List String
  isFile : String → Bool
  isDir : String → Bool
  getmtime : String → ℚ

/-- State carried through a synchronizer run: the watermark entries of the
store plus the abstract file-processing state. -/
structure SyncState (σ : Type) where
  wm : List (String × ℚ)
  fileState : σ
deriving DecidableEq

/-- `process_dir(folder, ...)` (src/photodb.py lines 492–531): list the
directory, split entries into files and subdirectories (in listing order,
`elif`-style), recurse into every subdirectory, then read the watermark,
process the files when forced or stale, and commit the new watermark.
The source's `for folder in dirs:` loop SHADOWS the `folder` parameter:
after the loop, `folder` names the last subdirectory whenever `dirs` is
non-empty, so `os.path.getmtime(folder)`, `db.load_value(folder)` and
`db.save_value(folder, str(mtime))` all use the last subdirectory's path. -/
def process_dir {σ : Type} (fs : FS) (pf : String → σ → σ) (import_files : Bool) :
    Nat → String → SyncState σ → SyncState σ
  | 0, _, st => st
  | fuel + 1, folder, st =>
    let paths := fs.listdir folder
    let fd := paths.foldl
      (fun (fd : List String × List String) file =>
        let path := joinPath folder file
        if fs.isFile path then (fd.1 ++ [path], fd.2)
        else if fs.isDir path then (fd.1, fd.2 ++ [path])
        else fd)
      ([], [])
    let files := fd.1
    let dirs := fd.2
    let st := dirs.foldl (fun st d => process_dir fs pf import_files fuel d st) st
    let folder := (dirs.getLast?).getD folder
    let mtime := fs.getmtime folder
    let last_modified := pyLookup st.wm folder
    let go : Bool :=
      import_files ||
        match last_modified with
        | none => true
        | some q => decide (q < mtime)
    if go then
      let fst := files.foldl (fun s f => pf f s) st.fileState
      ⟨pySetItem st.wm folder mtime, fst⟩
    else st

/-- A two-level tree: `/a` (mtime 10) contains the subdirectory `/a/b`
(mtime 5, empty) and the file `/a/f.txt`. -/
def fsC1 : FS :=
  { listdir := fun p => if p = "/a" then ["b", "f.txt"] else []
  , isFile := fun p => p = "/a/f.txt"
  , isDir := fun p => p = "/a/b"
  , getmtime := fun p => if p = "/a" then 10 else 5 }

/-- C1: running the synchronizer on `/a` (which contains the subdirectory
`/a/b`) leaves the final watermark table keyed by `/a/b` only — the read and
the commit both used the shadowed loop variable, i.e. the last
subdirectory's path — `/a` itself gets no watermark, and `/a`'s own file
`f.txt` is never processed because the freshly committed `/a/b` watermark
makes the skip test compare `/a/b` against itself. -/
theorem process_dir_watermark_keyed_by_last_subdir :
    process_dir fsC1 (fun f (s : List String) => s ++ [f]) false 3 "/a" ⟨[], []⟩ =
      ⟨[("/a/b", 5)], []⟩ ∧
    pyLookup ([("/a/b", 5)] : List (String × ℚ)) "/a" = none := by
  refine ⟨by decide, by decide⟩

end PhotoDB
